import Mathlib

/-!
Verification of the p2p_rust chat application against its specification.

The visible source (`src/App.vue`) is the Vue presentation layer of a
Tauri p2p chat.  Its script is shallowly embedded below: the reactive
refs become fields of `UIState`, each async handler becomes a pure
function from the old state (plus the backend's response, passed in
explicitly) to the new state and the command invocation it issued.
The Rust node core is not part of the visible source; where a claim is
about the node itself, the node is modelled from the specification
(definitions marked `Modelled from the spec:`).
-/

namespace P2PChat

/-- Payload of a `chat-message` event and element of the UI message list:
`{from, content, timestamp, is_self}` (field `from` renamed `from_`
because `from` is a Lean keyword). -/
structure ChatMessage where
  from_ : String
  content : String
  timestamp : String
  is_self : Bool
deriving Repr, DecidableEq

/-- ECMAScript whitespace recognised by `String.prototype.trim`:
WhiteSpace (TAB, VT, FF, SP, NBSP, ZWNBSP and the Zs spaces) and
LineTerminator (LF, CR, LS, PS). -/
def isJsWhitespace (c : Char) : Bool :=
  c.val = 9 || c.val = 10 || c.val = 11 || c.val = 12 || c.val = 13 ||
  c.val = 32 || c.val = 160 || c.val = 0x1680 ||
  (0x2000 ≤ c.val && c.val ≤ 0x200A) ||
  c.val = 0x2028 || c.val = 0x2029 || c.val = 0x202F ||
  c.val = 0x205F || c.val = 0x3000 || c.val = 0xFEFF

/-- JavaScript `s.trim()`: strip leading and trailing whitespace. -/
def jsTrim (s : String) : String :=
  String.mk (((s.toList.dropWhile isJsWhitespace).reverse.dropWhile
    isJsWhitespace).reverse)

/-- The five backend commands the UI can invoke, with the exact payload
shape each `invoke` call site passes (`App.vue` lines 27, 43, 56, 69, 84). -/
inductive Cmd where
  | init_p2p : Cmd
  | get_node_info : Cmd
  | send_message (message : String) : Cmd
  | join_room (roomName : String) : Cmd
  | connect_to_peer (addr : String) : Cmd
deriving Repr, DecidableEq

/-- The reactive state of the Vue component (the refs declared at the
top of `App.vue`'s script; DOM-only refs `messagesContainer` and
`copiedIndex` are omitted as they never feed into the command logic). -/
structure UIState where
  messages : List ChatMessage
  inputMessage : String
  peerID : String
  addresses : List String
  connectedPeers : List String
  isInit : Bool
  joinRoomMode : Bool
  connectPeerMode : Bool
  roomInput : String
  peerAddressInput : String
  currentRoom : String
deriving Repr, DecidableEq

/-- The initial reactive state of the component. -/
def UIState.initial : UIState :=
  { messages := [], inputMessage := "", peerID := "", addresses := [],
    connectedPeers := [], isInit := false, joinRoomMode := false,
    connectPeerMode := false, roomInput := "", peerAddressInput := "",
    currentRoom := "" }

/-- `addSystemMessage(content)`: push a message with `from: 'System'`,
the current ISO timestamp and `is_self: false` onto the list
(`scrollToBottom` is DOM-only and not modelled). -/
def addSystemMessage (st : UIState) (content now : String) : UIState :=
  { st with messages := st.messages ++
      [{ from_ := "System", content := content, timestamp := now,
         is_self := false }] }

/-- `sendMessage()`: early-return when the input trims to empty;
otherwise invoke `send_message {message}` and clear the input on
success, or append a System failure message on rejection.  `result` is
the backend's response to the invocation and `now` the timestamp used
for a System message.  Returns the new state and the invocation issued
(`none` on early return). -/
def sendMessage (st : UIState) (result : Except String Unit)
    (now : String) : UIState × Option Cmd :=
  if jsTrim st.inputMessage = "" then (st, none)
  else
    match result with
    | .ok _ => ({ st with inputMessage := "" },
        some (Cmd.send_message st.inputMessage))
    | .error e =>
        (addSystemMessage st ("⚠ Failed to send message: " ++ e) now,
         some (Cmd.send_message st.inputMessage))

/-- `joinRoom()`: early-return when the room input trims to empty;
otherwise invoke `join_room {roomName}` and on success set
`currentRoom`, close the modal and clear the input; on rejection append
a System failure message. -/
def joinRoom (st : UIState) (result : Except String Unit)
    (now : String) : UIState × Option Cmd :=
  if jsTrim st.roomInput = "" then (st, none)
  else
    match result with
    | .ok _ =>
        ({ st with
            currentRoom := st.roomInput, joinRoomMode := false,
            roomInput := "" },
         some (Cmd.join_room st.roomInput))
    | .error e =>
        (addSystemMessage st ("⚠ Failed to join room: " ++ e) now,
         some (Cmd.join_room st.roomInput))

/-- `connectToPeer()`: early-return when the address input trims to
empty; otherwise invoke `connect_to_peer {addr}` and on success close
the modal and clear the input; on rejection append a System failure
message. -/
def connectToPeer (st : UIState) (result : Except String Unit)
    (now : String) : UIState × Option Cmd :=
  if jsTrim st.peerAddressInput = "" then (st, none)
  else
    match result with
    | .ok _ =>
        ({ st with
            connectPeerMode := false, peerAddressInput := "" },
         some (Cmd.connect_to_peer st.peerAddressInput))
    | .error e =>
        (addSystemMessage st ("⚠ Failed to connect to peer: " ++ e) now,
         some (Cmd.connect_to_peer st.peerAddressInput))

/-- The polling schedule `initP2P` installs for `get_node_info`:
whether one call is made immediately, and the `setInterval` period in
milliseconds, if any. -/
structure PollSchedule where
  immediateCall : Bool
  intervalMs : Option Nat
deriving Repr, DecidableEq

/-- `initP2P()`: invoke `init_p2p`; on success store the returned peer
id, mark initialised, call `updateNodeInfo()` once and install
`setInterval(updateNodeInfo, 5000)`; on failure append a System
message and install no polling. -/
def initP2P (st : UIState) (result : Except String String)
    (now : String) : UIState × PollSchedule :=
  match result with
  | .ok id => ({ st with peerID := id, isInit := true },
      { immediateCall := true, intervalMs := some 5000 })
  | .error e =>
      (addSystemMessage st ("❌ Failed to initialize P2P node: " ++ e) now,
       { immediateCall := false, intervalMs := none })

/-- The `chat-message` listener registered in `onMounted`: push
`event.payload` onto the message list unmodified. -/
def onChatMessage (st : UIState) (payload : ChatMessage) : UIState :=
  { st with messages := st.messages ++ [payload] }

/-- `shortPeerID(id)`: ids longer than 16 characters are abbreviated to
the first 8 characters, `'...'`, and the last 6 characters (modelled on
the character list of the string; `substring(0,8)` is `take 8`,
`substring(id.length-6)` is `drop (length-6)`). -/
def shortPeerID (id : List Char) : List Char :=
  if id.length > 16 then
    id.take 8 ++ "...".toList ++ id.drop (id.length - 6)
  else id

/-- Modelled from the spec: the error taxonomy of §7 — the node core
itself is not among the visible sources, only its UI caller is. -/
inductive P2PError where
  | TransportBindError : P2PError
  | InvalidAddressError : P2PError
  | InvalidRoomNameError : P2PError
  | EmptyMessageError : P2PError
  | DialTimeoutError : P2PError
  | UnreachablePeerError : P2PError
  | NotJoinedError : P2PError
  | AlreadyDialingError : P2PError
deriving Repr, DecidableEq

/-- Modelled from the spec: the node-core state of §3 — the current room
subscription (`at most one room at a time`, hence an `Option`), the
connected-peer identifier set, the set of addresses currently in state
`dialing`, and the dedup recent-history set keyed by
`(senderId, timestamp, content-hash)`. -/
structure NodeState where
  currentRoom : Option String
  connectedPeersSet : List String
  dialingSet : List String
  seen : List (String × String × String)
deriving Repr, DecidableEq

/-- Modelled from the spec: the node state right after `initialize()`,
before any join or dial — no room, no peers, no outstanding dials, an
empty dedup window. -/
def NodeState.initial : NodeState :=
  { currentRoom := none, connectedPeersSet := [], dialingSet := [],
    seen := [] }

/-- Modelled from the spec (§4.3 `publish` / §6 `send_message`): requires
an active room (`NotJoinedError` if none) and non-empty content
(`EmptyMessageError`); on success produces one local `Message` with
`originFlag=local`, delivered to the consumer immediately as a
`chat-message` event with `is_self=true`.  Returns the new state, the
events emitted, and the error if any; on error the state is returned
unchanged and no event is emitted. -/
def send_message (st : NodeState) (selfId content now : String) :
    NodeState × List ChatMessage × Option P2PError :=
  match st.currentRoom with
  | none => (st, [], some P2PError.NotJoinedError)
  | some _ =>
      if content = "" then (st, [], some P2PError.EmptyMessageError)
      else (st,
        [{ from_ := selfId, content := content, timestamp := now,
           is_self := true }], none)

/-- Modelled from the spec (§4.3 `join` / §6 `join_room`): non-empty
room name required (`InvalidRoomNameError`); idempotent no-op if
already joined to the same room; otherwise the previous subscription
(if any) is torn down and replaced (leave-then-join, non-additive).
Join emits no `chat-message` events. -/
def join_room (st : NodeState) (roomName : String) :
    NodeState × List ChatMessage × Option P2PError :=
  if roomName = "" then (st, [], some P2PError.InvalidRoomNameError)
  else if st.currentRoom = some roomName then (st, [], none)
  else ({ st with currentRoom := some roomName }, [], none)

/-- Modelled from the spec: the outcome of the single bounded-timeout
dial attempt `connect(address)` makes once local validation has
passed — success yields the remote peer identifier. -/
inductive DialOutcome where
  | success (remoteId : String) : DialOutcome
  | timeout : DialOutcome
  | unreachable : DialOutcome
deriving Repr, DecidableEq

/-- Modelled from the spec (§4.2, §7): address-syntax validation is
performed locally before any network I/O; the spec fixes only that the
empty string is malformed (`connect_to_peer("") fails with
InvalidAddressError`), so validity is modelled as non-emptiness. -/
def validAddress (addr : String) : Bool :=
  addr ≠ ""

/-- Modelled from the spec (§4.2 `connect` / §5 / §6 `connect_to_peer`):
validate syntax locally first (`InvalidAddressError` — the dial outcome
is never consulted); reject a second dial to an address already in
state `dialing` (`AlreadyDialingError`); otherwise a single dial whose
failure (`DialTimeoutError`/`UnreachablePeerError`) leaves the
connected-peer set unchanged and whose success registers the
`PeerConnection`. -/
def connect_to_peer (st : NodeState) (addr : String)
    (outcome : DialOutcome) : NodeState × Option P2PError :=
  if ¬ validAddress addr then (st, some P2PError.InvalidAddressError)
  else if addr ∈ st.dialingSet then
    (st, some P2PError.AlreadyDialingError)
  else
    match outcome with
    | DialOutcome.timeout => (st, some P2PError.DialTimeoutError)
    | DialOutcome.unreachable => (st, some P2PError.UnreachablePeerError)
    | DialOutcome.success remoteId =>
        ({ st with connectedPeersSet :=
            if remoteId ∈ st.connectedPeersSet then st.connectedPeersSet
            else st.connectedPeersSet ++ [remoteId] }, none)

/-- Modelled from the spec (§4.3 inbound handling): a remotely received
message on topic `room` is delivered only when the node is currently
joined to `room`; it is deduplicated against the
`(senderId, timestamp, content-hash)` recent-history set, then emitted
exactly once to the consumer with `originFlag=remote`
(`is_self=false`). -/
def receive (st : NodeState) (room senderId content timestamp hash :
    String) : NodeState × List ChatMessage :=
  if st.currentRoom = some room then
    if (senderId, timestamp, hash) ∈ st.seen then (st, [])
    else ({ st with seen := (senderId, timestamp, hash) :: st.seen },
      [{ from_ := senderId, content := content, timestamp := timestamp,
         is_self := false }])
  else (st, [])

/-- A node-level action, used to talk about whole traces of node
activity (each command carries the environment data it needs: dial
outcomes, timestamps, inbound network traffic). -/
inductive NodeAction where
  | send (selfId content now : String) : NodeAction
  | join (roomName : String) : NodeAction
  | connect (addr : String) (outcome : DialOutcome) : NodeAction
  | recv (room senderId content timestamp hash : String) : NodeAction
deriving Repr, DecidableEq

/-- One step of the node: dispatch a `NodeAction` to the corresponding
operation, returning the new state and the `chat-message` events
emitted. -/
def stepNode (st : NodeState) : NodeAction → NodeState × List ChatMessage
  | NodeAction.send selfId content now =>
      ((send_message st selfId content now).1,
       (send_message st selfId content now).2.1)
  | NodeAction.join roomName =>
      ((join_room st roomName).1, (join_room st roomName).2.1)
  | NodeAction.connect addr outcome =>
      ((connect_to_peer st addr outcome).1, [])
  | NodeAction.recv room senderId content timestamp hash =>
      receive st room senderId content timestamp hash

/-- Run a trace of node actions from a state. -/
def runNode (st : NodeState) : List NodeAction → NodeState
  | [] => st
  | a :: rest => runNode (stepNode st a).1 rest

/-- Whether an action is a `join`. -/
def NodeAction.isJoin : NodeAction → Bool
  | NodeAction.join _ => true
  | _ => false

/-! ## Helper lemmas -/

theorem jsTrim_empty : jsTrim "" = "" := rfl

theorem ne_empty_of_jsTrim_ne_empty {s : String} (h : jsTrim s ≠ "") :
    s ≠ "" := by
  intro he
  exact h (he ▸ jsTrim_empty)

theorem send_message_fst (st : NodeState) (selfId content now : String) :
    (send_message st selfId content now).1 = st := by
  unfold send_message
  cases st.currentRoom with
  | none => rfl
  | some r => by_cases hc : content = "" <;> simp [hc]

theorem connect_to_peer_room (st : NodeState) (addr : String)
    (o : DialOutcome) :
    (connect_to_peer st addr o).1.currentRoom = st.currentRoom := by
  unfold connect_to_peer
  split
  · rfl
  · split
    · rfl
    · cases o <;> rfl

theorem receive_room (st : NodeState) (room senderId content timestamp
    hash : String) :
    (receive st room senderId content timestamp hash).1.currentRoom =
      st.currentRoom := by
  unfold receive
  split
  · split <;> rfl
  · rfl

theorem stepNode_preserves_room (st : NodeState) (a : NodeAction)
    (h : a.isJoin = false) :
    (stepNode st a).1.currentRoom = st.currentRoom := by
  cases a with
  | send selfId content now =>
      simp only [stepNode, send_message_fst]
  | join roomName => simp [NodeAction.isJoin] at h
  | connect addr outcome =>
      simp only [stepNode]
      exact connect_to_peer_room st addr outcome
  | recv room senderId content timestamp hash =>
      simp only [stepNode]
      exact receive_room st room senderId content timestamp hash

theorem runNode_no_join_room (tr : List NodeAction)
    (h : ∀ a ∈ tr, a.isJoin = false) (st : NodeState) :
    (runNode st tr).currentRoom = st.currentRoom := by
  induction tr generalizing st with
  | nil => rfl
  | cons a rest ih =>
      rw [runNode, ih (fun b hb => h b (List.mem_cons_of_mem a hb)),
        stepNode_preserves_room st a (h a (List.mem_cons_self a rest))]

/-! ## Claims -/

/-- C1: The external command surface consists of exactly the five
asynchronous commands `init_p2p`, `get_node_info`, `send_message`,
`join_room`, `connect_to_peer`, and the UI invokes `send_message` with
the message string, `join_room` with the room-name string, and
`connect_to_peer` with the address string, matching the spec's command
table. -/
theorem ui_command_surface (st : UIState) (res : Except String Unit)
    (now : String) (hs : jsTrim st.inputMessage ≠ "")
    (hr : jsTrim st.roomInput ≠ "")
    (ha : jsTrim st.peerAddressInput ≠ "") :
    (sendMessage st res now).2 = some (Cmd.send_message st.inputMessage)
    ∧ (joinRoom st res now).2 = some (Cmd.join_room st.roomInput)
    ∧ (connectToPeer st res now).2 =
        some (Cmd.connect_to_peer st.peerAddressInput)
    ∧ ∀ c : Cmd, c = Cmd.init_p2p ∨ c = Cmd.get_node_info ∨
        (∃ m, c = Cmd.send_message m) ∨ (∃ r, c = Cmd.join_room r) ∨
        (∃ a, c = Cmd.connect_to_peer a) := by
  refine ⟨?_, ?_, ?_, ?_⟩
  · simp only [sendMessage, hs, if_false]
    cases res <;> rfl
  · simp only [joinRoom, hr, if_false]
    cases res <;> rfl
  · simp only [connectToPeer, ha, if_false]
    cases res <;> rfl
  · intro c
    cases c with
    | init_p2p => exact Or.inl rfl
    | get_node_info => exact Or.inr (Or.inl rfl)
    | send_message m => exact Or.inr (Or.inr (Or.inl ⟨m, rfl⟩))
    | join_room r => exact Or.inr (Or.inr (Or.inr (Or.inl ⟨r, rfl⟩)))
    | connect_to_peer a =>
        exact Or.inr (Or.inr (Or.inr (Or.inr ⟨a, rfl⟩)))

/-- Witness for C1 at a concrete state. -/
theorem ui_command_surface_witness :
    (sendMessage
      { UIState.initial with
          inputMessage := "hi"
          roomInput := "lobby"
          peerAddressInput := "/ip4/1.2.3.4/tcp/1" }
      (Except.ok ()) "2024-01-01T00:00:00Z").2 =
      some (Cmd.send_message "hi") :=
  (ui_command_surface
    { UIState.initial with
        inputMessage := "hi"
        roomInput := "lobby"
        peerAddressInput := "/ip4/1.2.3.4/tcp/1" }
    (Except.ok ()) "2024-01-01T00:00:00Z"
    (by decide) (by decide) (by decide)).1

/-- C7: after `init_p2p` succeeds, `get_node_info` is invoked once
immediately and then on a fixed 5000 ms interval (the 5-second refresh
cadence the spec cites for `connectedPeers()`). -/
theorem init_poll_cadence (st : UIState) (res : Except String String)
    (id now : String) (hok : res = Except.ok id) :
    (initP2P st res now).2.immediateCall = true ∧
    (initP2P st res now).2.intervalMs = some 5000 ∧
    (initP2P st res now).1.isInit = true ∧
    (initP2P st res now).1.peerID = id := by
  subst hok
  exact ⟨rfl, rfl, rfl, rfl⟩

/-- Witness for C7 at a concrete state. -/
theorem init_poll_cadence_witness :
    (initP2P UIState.initial (Except.ok "12D3KooW") "t").2.intervalMs =
      some 5000 :=
  (init_poll_cadence UIState.initial (Except.ok "12D3KooW") "12D3KooW"
    "t" rfl).2.1

/-- C10: `shortPeerID id` returns `id` unchanged when its length is at
most 16, and otherwise returns the 17-character string formed by the
first 8 characters of `id`, the literal `...`, and the last 6
characters of `id`. -/
theorem shortPeerID_spec (id : List Char) :
    (id.length ≤ 16 → shortPeerID id = id) ∧
    (id.length > 16 →
      shortPeerID id =
        id.take 8 ++ "...".toList ++ id.drop (id.length - 6) ∧
      (shortPeerID id).length = 17 ∧
      (shortPeerID id).take 8 = id.take 8 ∧
      (shortPeerID id).drop 11 = id.drop (id.length - 6)) := by
  constructor
  · intro hle
    simp [shortPeerID, Nat.not_lt.mpr hle]
  · intro hgt
    have heq : shortPeerID id =
        id.take 8 ++ "...".toList ++ id.drop (id.length - 6) := by
      simp [shortPeerID, hgt]
    have h8 : (id.take 8).length = 8 := by
      simp [List.length_take]
      omega
    have h11 : (id.take 8 ++ "...".toList).length = 11 := by
      simp [List.length_append, h8]
    refine ⟨heq, ?_, ?_, ?_⟩
    · rw [heq]
      simp [List.length_append, h8, List.length_drop]
      omega
    · rw [heq, List.append_assoc]
      calc (id.take 8 ++ ("...".toList ++ id.drop (id.length - 6))).take 8
          = (id.take 8 ++ ("...".toList ++ id.drop (id.length - 6))).take
              (id.take 8).length := by rw [h8]
        _ = id.take 8 := List.take_left _ _
    · rw [heq]
      calc (id.take 8 ++ "...".toList ++ id.drop (id.length - 6)).drop 11
          = (id.take 8 ++ "...".toList ++ id.drop (id.length - 6)).drop
              (id.take 8 ++ "...".toList).length := by rw [h11]
        _ = id.drop (id.length - 6) := List.drop_left _ _

/-- Witness for C10 at a concrete 20-character id. -/
theorem shortPeerID_spec_witness :
    shortPeerID "12D3KooWAbCdEfGhIjKl".toList =
      "12D3KooW...GhIjKl".toList ∧
    (shortPeerID "12D3KooWAbCdEfGhIjKl".toList).length = 17 := by
  have h := (shortPeerID_spec "12D3KooWAbCdEfGhIjKl".toList).2
    (by decide)
  exact ⟨by decide, h.2.1⟩

/-- C2: exactly one `chat-message` event is emitted per
locally-published message (with `is_self=true`) and per deduplicated
remotely-received message (with `is_self=false`); a duplicate in the
dedup window emits none; and the UI consumer appends each payload
unmodified to the end of its message list (arrival order). -/
theorem chat_message_emission (st : NodeState) (stu : UIState)
    (selfId content now room sender ts hsh : String)
    (hroom : st.currentRoom = some room) (hc : content ≠ "")
    (hnew : (sender, ts, hsh) ∉ st.seen) (p : ChatMessage) :
    (send_message st selfId content now).2.1 =
      [{ from_ := selfId, content := content, timestamp := now,
         is_self := true }] ∧
    (receive st room sender content ts hsh).2 =
      [{ from_ := sender, content := content, timestamp := ts,
         is_self := false }] ∧
    (∀ st2 : NodeState, st2.currentRoom = some room →
      (sender, ts, hsh) ∈ st2.seen →
      (receive st2 room sender content ts hsh).2 = []) ∧
    (onChatMessage stu p).messages = stu.messages ++ [p] := by
  refine ⟨?_, ?_, ?_, rfl⟩
  · simp [send_message, hroom, hc]
  · simp [receive, hroom, hnew]
  · intro st2 h2room h2mem
    simp [receive, h2room, h2mem]

/-- Witness for C2 at a concrete node and UI state. -/
theorem chat_message_emission_witness :
    (send_message
      { NodeState.initial with currentRoom := some "lobby" }
      "me" "hi" "t").2.1 =
      [{ from_ := "me", content := "hi", timestamp := "t",
         is_self := true }] :=
  (chat_message_emission
    { NodeState.initial with currentRoom := some "lobby" }
    UIState.initial "me" "hi" "t" "lobby" "peerA" "t2" "h2"
    rfl (by decide) (by simp [NodeState.initial])
    { from_ := "x", content := "y", timestamp := "z",
      is_self := false }).1

/-- C3: `send_message` after any trace of node actions containing no
`join` fails with `NotJoinedError`, emits no `chat-message`, and leaves
the state unchanged; `publish` of empty content while joined fails with
`EmptyMessageError`, again emitting nothing and changing nothing. -/
theorem send_before_join_fails (tr : List NodeAction)
    (hnj : ∀ a ∈ tr, a.isJoin = false) (selfId content now : String) :
    send_message (runNode NodeState.initial tr) selfId content now =
      (runNode NodeState.initial tr, [],
       some P2PError.NotJoinedError) ∧
    (∀ st : NodeState, ∀ r : String, st.currentRoom = some r →
      send_message st selfId "" now =
        (st, [], some P2PError.EmptyMessageError)) := by
  constructor
  · have h : (runNode NodeState.initial tr).currentRoom = none :=
      runNode_no_join_room tr hnj NodeState.initial
    simp [send_message, h]
  · intro st r hr
    simp [send_message, hr]

/-- Witness for C3 after a concrete no-join trace. -/
theorem send_before_join_fails_witness :
    send_message
      (runNode NodeState.initial
        [NodeAction.connect "/ip4/9.9.9.9/tcp/1" DialOutcome.timeout])
      "me" "hello" "t" =
      (runNode NodeState.initial
        [NodeAction.connect "/ip4/9.9.9.9/tcp/1" DialOutcome.timeout],
       [], some P2PError.NotJoinedError) :=
  (send_before_join_fails
    [NodeAction.connect "/ip4/9.9.9.9/tcp/1" DialOutcome.timeout]
    (by intro a ha; simp at ha; subst ha; rfl)
    "me" "hello" "t").1

/-- C4: `join(room2)` while joined to `room1` removes the `room1`
subscription (leave-then-join, non-additive): afterwards the node is
joined to `room2` and not `room1`, a publish by another peer to `room1`
is not delivered, and the node is joined to at most one room at any
time. -/
theorem join_switch_room (st : NodeState) (r1 r2 : String)
    (h1 : st.currentRoom = some r1) (hne : r2 ≠ r1) (hr2 : r2 ≠ "") :
    (join_room st r2).1.currentRoom = some r2 ∧
    (join_room st r2).1.currentRoom ≠ some r1 ∧
    (∀ sender c ts hsh : String,
      receive (join_room st r2).1 r1 sender c ts hsh =
        ((join_room st r2).1, [])) ∧
    (∀ s : NodeState, ∀ ra rb : String, s.currentRoom = some ra →
      s.currentRoom = some rb → ra = rb) := by
  have hcond : ¬ st.currentRoom = some r2 := by
    rw [h1]
    intro hcc
    exact hne (Option.some.inj hcc).symm
  have hj : (join_room st r2).1 =
      { st with currentRoom := some r2 } := by
    simp [join_room, hr2, hcond]
  refine ⟨by rw [hj], ?_, ?_, ?_⟩
  · rw [hj]
    intro hcc
    exact hne (Option.some.inj hcc)
  · intro sender c ts hsh
    rw [hj]
    simp [receive, hne]
  · intro s ra rb ha hb
    exact Option.some.inj (ha.symm.trans hb)

/-- Witness for C4 at a concrete state joined to room1. -/
theorem join_switch_room_witness :
    (join_room { NodeState.initial with currentRoom := some "room1" }
      "room2").1.currentRoom = some "room2" :=
  (join_switch_room
    { NodeState.initial with currentRoom := some "room1" }
    "room1" "room2" rfl (by decide) (by decide)).1

/-- C5: `join(R)` is idempotent for the currently joined room: the
second of two consecutive `join(R)` calls is a no-op (same state, no
error), and neither call emits any `chat-message` event. -/
theorem join_idempotent (st : NodeState) (r : String) (hr : r ≠ "") :
    join_room (join_room st r).1 r = ((join_room st r).1, [], none) ∧
    (join_room st r).2.1 = [] := by
  have hafter : (join_room st r).1.currentRoom = some r := by
    simp only [join_room, if_neg hr]
    by_cases hc : st.currentRoom = some r
    · rw [if_pos hc]
      exact hc
    · rw [if_neg hc]
  constructor
  · have h2 : ∀ s1 : NodeState, s1.currentRoom = some r →
        join_room s1 r = (s1, [], none) := by
      intro s1 hs1
      rw [join_room, if_neg hr, if_pos hs1]
    exact h2 (join_room st r).1 hafter
  · simp only [join_room, if_neg hr]
    by_cases hc : st.currentRoom = some r
    · rw [if_pos hc]
    · rw [if_neg hc]

/-- Witness for C5 at a concrete fresh node. -/
theorem join_idempotent_witness :
    join_room (join_room NodeState.initial "lobby").1 "lobby" =
      ((join_room NodeState.initial "lobby").1, [], none) :=
  (join_idempotent NodeState.initial "lobby" (by decide)).1

/-- C6: `connect_to_peer` with the empty address fails with
`InvalidAddressError` and changes nothing; when validation fails the
result never depends on the network (validation is local, before any
I/O); and a dial that fails with timeout or unreachability leaves the
whole node state — in particular the connected-peer set — unchanged. -/
theorem connect_invalid_and_failed (st : NodeState) (o : DialOutcome) :
    connect_to_peer st "" o = (st, some P2PError.InvalidAddressError) ∧
    (∀ addr : String, validAddress addr = false →
      ∀ o1 o2 : DialOutcome,
        connect_to_peer st addr o1 = connect_to_peer st addr o2) ∧
    (∀ addr : String,
      (connect_to_peer st addr DialOutcome.timeout).1 = st ∧
      (connect_to_peer st addr DialOutcome.unreachable).1 = st) := by
  refine ⟨?_, ?_, ?_⟩
  · simp [connect_to_peer, validAddress]
  · intro addr hv o1 o2
    simp [connect_to_peer, hv]
  · intro addr
    constructor <;>
      · unfold connect_to_peer
        split
        · rfl
        · split
          · rfl
          · rfl

/-- Witness for C6 at a concrete state and dial outcome. -/
theorem connect_invalid_and_failed_witness :
    connect_to_peer NodeState.initial "" DialOutcome.timeout =
      (NodeState.initial, some P2PError.InvalidAddressError) :=
  (connect_invalid_and_failed NodeState.initial DialOutcome.timeout).1

/-- C8: each UI handler returns early, invoking nothing, when its input
trims to the empty string; any payload it does invoke with is
non-empty; hence the backend branches for `EmptyMessageError`,
`InvalidRoomNameError` and the empty-address `InvalidAddressError` are
unreachable through these UI paths. -/
theorem ui_nonempty_guard (st : UIState) (res : Except String Unit)
    (now : String) :
    (jsTrim st.inputMessage = "" →
      sendMessage st res now = (st, none)) ∧
    (jsTrim st.roomInput = "" → joinRoom st res now = (st, none)) ∧
    (jsTrim st.peerAddressInput = "" →
      connectToPeer st res now = (st, none)) ∧
    (∀ m, (sendMessage st res now).2 = some (Cmd.send_message m) →
      m ≠ "") ∧
    (∀ r, (joinRoom st res now).2 = some (Cmd.join_room r) →
      r ≠ "") ∧
    (∀ a, (connectToPeer st res now).2 =
        some (Cmd.connect_to_peer a) → a ≠ "") ∧
    (∀ s2 : NodeState, ∀ sid c t : String, c ≠ "" →
      (send_message s2 sid c t).2.2 ≠
        some P2PError.EmptyMessageError) ∧
    (∀ s2 : NodeState, ∀ r : String, r ≠ "" →
      (join_room s2 r).2.2 ≠ some P2PError.InvalidRoomNameError) ∧
    (∀ s2 : NodeState, ∀ a : String, ∀ o : DialOutcome, a ≠ "" →
      (connect_to_peer s2 a o).2 ≠
        some P2PError.InvalidAddressError) := by
  refine ⟨?_, ?_, ?_, ?_, ?_, ?_, ?_, ?_, ?_⟩
  · intro hg
    simp [sendMessage, hg]
  · intro hg
    simp [joinRoom, hg]
  · intro hg
    simp [connectToPeer, hg]
  · intro m hm
    by_cases hg : jsTrim st.inputMessage = ""
    · simp [sendMessage, hg] at hm
    · have hmeq : st.inputMessage = m := by
        cases res <;> simp [sendMessage, hg] at hm <;> exact hm
      rw [← hmeq]
      exact ne_empty_of_jsTrim_ne_empty hg
  · intro r hm
    by_cases hg : jsTrim st.roomInput = ""
    · simp [joinRoom, hg] at hm
    · have hmeq : st.roomInput = r := by
        cases res <;> simp [joinRoom, hg] at hm <;> exact hm
      rw [← hmeq]
      exact ne_empty_of_jsTrim_ne_empty hg
  · intro a hm
    by_cases hg : jsTrim st.peerAddressInput = ""
    · simp [connectToPeer, hg] at hm
    · have hmeq : st.peerAddressInput = a := by
        cases res <;> simp [connectToPeer, hg] at hm <;> exact hm
      rw [← hmeq]
      exact ne_empty_of_jsTrim_ne_empty hg
  · intro s2 sid c t hc
    cases hcr : s2.currentRoom <;> simp [send_message, hcr, hc]
  · intro s2 r hrne
    rw [join_room, if_neg hrne]
    split <;> simp
  · intro s2 a o hane
    have hv : validAddress a = true := by simp [validAddress, hane]
    unfold connect_to_peer
    rw [if_neg (by simp [hv])]
    by_cases hd : a ∈ s2.dialingSet
    · simp [hd]
    · rw [if_neg hd]
      cases o <;> simp

/-- Witness for C8 at a concrete state whose inputs are whitespace. -/
theorem ui_nonempty_guard_witness :
    sendMessage { UIState.initial with inputMessage := "   " }
      (Except.ok ()) "t" =
      ({ UIState.initial with inputMessage := "   " }, none) :=
  (ui_nonempty_guard { UIState.initial with inputMessage := "   " }
    (Except.ok ()) "t").1 (by decide)

/-- C9: UI handlers are atomic on failure: when `send_message` rejects,
`inputMessage` is unchanged (it is cleared only after a successful
invoke); when `join_room` rejects, `currentRoom`, `joinRoomMode` and
`roomInput` are unchanged; in each failure case the only state change
is appending one System message with `from = System` and
`is_self = false`. -/
theorem ui_failure_atomicity (st : UIState) (e now : String)
    (hs : jsTrim st.inputMessage ≠ "") (hr : jsTrim st.roomInput ≠ "") :
    (sendMessage st (Except.error e) now).1 =
      { st with messages := st.messages ++
          [{ from_ := "System",
             content := "⚠ Failed to send message: " ++ e,
             timestamp := now, is_self := false }] } ∧
    (sendMessage st (Except.error e) now).1.inputMessage =
      st.inputMessage ∧
    (joinRoom st (Except.error e) now).1 =
      { st with messages := st.messages ++
          [{ from_ := "System",
             content := "⚠ Failed to join room: " ++ e,
             timestamp := now, is_self := false }] } ∧
    (joinRoom st (Except.error e) now).1.currentRoom =
      st.currentRoom ∧
    (joinRoom st (Except.error e) now).1.joinRoomMode =
      st.joinRoomMode ∧
    (joinRoom st (Except.error e) now).1.roomInput = st.roomInput := by
  have h1 : (sendMessage st (Except.error e) now).1 =
      { st with messages := st.messages ++
          [{ from_ := "System",
             content := "⚠ Failed to send message: " ++ e,
             timestamp := now, is_self := false }] } := by
    rw [sendMessage, if_neg hs]
    rfl
  have h2 : (joinRoom st (Except.error e) now).1 =
      { st with messages := st.messages ++
          [{ from_ := "System",
             content := "⚠ Failed to join room: " ++ e,
             timestamp := now, is_self := false }] } := by
    rw [joinRoom, if_neg hr]
    rfl
  exact ⟨h1, by rw [h1], h2, by rw [h2], by rw [h2], by rw [h2]⟩

/-- Witness for C9 at a concrete state and rejection. -/
theorem ui_failure_atomicity_witness :
    (sendMessage
      { UIState.initial with inputMessage := "hi", roomInput := "r" }
      (Except.error "NotJoined") "t").1.inputMessage = "hi" :=
  (ui_failure_atomicity
    { UIState.initial with inputMessage := "hi", roomInput := "r" }
    "NotJoined" "t" (by decide) (by decide)).2.1

end P2PChat
